import Mathlib

/-!
Verification of the Chalice GraphQL view (`strawberry/chalice/views.py`)
against its specification.

The embedding models the request handler `GraphQLView.execute_request`
together with its helpers `should_render_graphiql`, `error_response` and
`render_graphiql`.  Collaborators that live outside the provided sources
(`parse_query_params`, `parse_request_data`, `process_result`,
`get_graphiql_html` from other strawberry modules, and the Chalice
framework primitives) are modelled from the specification, each marked by
a doc comment.
-/

/-- JSON values, the shape of decoded request bodies and of response data.
JSON encoding/decoding itself is out of scope per the specification; the
embedding works with already-decoded values. -/
inductive JsonValue where
  | null
  | bool (b : Bool)
  | num (n : Int)
  | str (s : String)
  | arr (elems : List JsonValue)
  | obj (fields : List (String × JsonValue))

/-- Substring test on character lists: does `pat` occur inside `s`?
Mirrors Python's `pat in s` for strings. -/
def subOf (pat : List Char) : List Char → Bool
  | [] => List.isPrefixOf pat []
  | c :: rest => List.isPrefixOf pat (c :: rest) || subOf pat rest

/-- The function `strIn pat s` mirrors the Python expression `pat in s` on strings. -/
def strIn (pat s : String) : Bool :=
  subOf pat.data s.data

/-- Header lookup with the empty string as default, mirroring
`request.headers.get(key, "")` on Chalice's case-insensitive header map
(keys are stored lowercased). -/
def hget (headers : List (String × String)) (key : String) : String :=
  (headers.lookup key).getD ""

/-- A Chalice request as consumed by the view: method, headers, query
parameters, and the result of the `json_body` property.  Chalice's
`json_body` raises `BadRequestError` when the raw body does not parse as
JSON; that outcome is modelled as `Except.error ()`.  An empty query
string maps to an empty `query_params` list (Chalice's `None`/empty
`MultiDict` are both falsy). -/
structure Request where
  method : String
  headers : List (String × String)
  query_params : List (String × String)
  json_body : Except Unit JsonValue

/-- The result produced by the external execution engine: optional data
plus an ordered list of GraphQL error objects. -/
structure ExecutionResult where
  data : Option JsonValue
  errors : List JsonValue

/-- The structured operation extracted from the data source
(`strawberry.http.GraphQLRequestData`). -/
structure GraphQLRequestData where
  query : JsonValue
  variable_values : Option JsonValue
  operation_name : Option JsonValue

/-- The view's construction-time configuration: the exploration-page flag,
the (opaque, external) execution engine, and the configured JSON encoder
for successful results. -/
structure GraphQLView where
  graphiql : Bool
  execute_sync : GraphQLRequestData → Request → ExecutionResult
  json_encoder : List (String × JsonValue) → String

/-- A response body: either a structured value that Chalice will encode as
JSON (used by `error_response`) or an already-encoded text payload (the
exploration page, or the encoder output for successful results). -/
inductive Body where
  | json (value : JsonValue)
  | text (s : String)

/-- A Chalice response.  `Response(body=b)` defaults to status code 200
and no extra headers. -/
structure Response where
  body : Body
  status_code : Nat
  headers : Option (List (String × String))

/-- The message of `MissingQueryError` from
`strawberry/exceptions/__init__.py`. -/
def missingQueryErrorMessage : String :=
  "Request data is missing a \"query\" value"

/-- Modelled from the spec: `parse_query_params` (strawberry.http, not
under src/) turns the query-parameter mapping into the data source for the
Operation Extractor.  The specification marks JSON decoding as out of
scope, so the JSON-decoding of a `variables` value is not modelled; every
parameter value is kept as its raw string. -/
def parse_query_params (params : List (String × String)) : List (String × JsonValue) :=
  params.map (fun p => (p.1, JsonValue.str p.2))

/-- Modelled from the spec: `parse_request_data` (strawberry.http, not
under src/) extracts `query`, `variables` and `operationName` from the
data source and fails with `MissingQueryError` when no `query` key is
present or it is empty. -/
def parse_request_data (data : List (String × JsonValue)) :
    Except String GraphQLRequestData :=
  match data.lookup "query" with
  | none => Except.error missingQueryErrorMessage
  | some (JsonValue.str "") => Except.error missingQueryErrorMessage
  | some q =>
    Except.ok
      { query := q
        variable_values := data.lookup "variables"
        operation_name := data.lookup "operationName" }

/-- Modelled from the spec: `process_result` (strawberry.http, not under
src/) produces the canonical GraphQL-HTTP response object: key `data` is
always present (null when execution produced none) and key `errors` is
present only when the error list is non-empty. -/
def process_result (result : ExecutionResult) : List (String × JsonValue) :=
  if result.errors.isEmpty then
    [("data", (result.data).getD JsonValue.null)]
  else
    [("data", (result.data).getD JsonValue.null), ("errors", JsonValue.arr result.errors)]

/-- Modelled from the spec: `get_graphiql_html` (strawberry.utils.graphiql,
not under src/) is an opaque static asset provider, deterministic for a
fixed configuration. -/
def get_graphiql_html (subscription_enabled : Bool) : String :=
  if subscription_enabled then
    "<html>exploration page with subscriptions</html>"
  else
    "<html>exploration page</html>"

/-- Embeds `GraphQLView.render_graphiql`: returns the exploration page html,
always with `subscription_enabled=False`. -/
def render_graphiql : String :=
  get_graphiql_html false

/-- Embeds `GraphQLView.should_render_graphiql`: false when the flag is off,
otherwise true exactly when the `accept` header (defaulting to the empty
string when absent) contains `"text/html"` or `"*/*"` as a substring. -/
def should_render_graphiql (graphiql : Bool) (request : Request) : Bool :=
  if !graphiql then
    false
  else
    strIn "text/html" (hget request.headers "accept") ||
      strIn "*/*" (hget request.headers "accept")

/-- Embeds `GraphQLView.error_response`: the single error responder.  Builds the
body `{"Code": error_code, "Message": message}` with the given status code
and headers. -/
def error_response (message : String) (error_code : String)
    (http_status_code : Nat) (headers : Option (List (String × String))) : Response :=
  { body := Body.json (JsonValue.obj
      [("Code", JsonValue.str error_code), ("Message", JsonValue.str message)])
    status_code := http_status_code
    headers := headers }

/-- The tail of `GraphQLView.execute_request` after classification
(views.py lines 135-156): Operation Extraction, Execution Adapter and
Result Serializer, with the `MissingQueryError` rejection path. -/
def dispatch_data (view : GraphQLView) (request : Request)
    (data : List (String × JsonValue)) : Response :=
  match parse_request_data data with
  | Except.error _ =>
    error_response "No GraphQL query found in the request" "BadRequestError" 400 none
  | Except.ok request_data =>
    let result := view.execute_sync request_data request
    let http_result := process_result result
    { body := Body.text (view.json_encoder http_result)
      status_code := 200
      headers := none }

/-- Embeds `GraphQLView.execute_request`: the whole handler, mirroring the branch
structure of views.py lines 91-156. -/
def execute_request (view : GraphQLView) (request : Request) : Response :=
  if !(request.method == "POST" || request.method == "GET") then
    error_response "Unsupported method, must be of request type POST or GET"
      "MethodNotAllowedError" 405 none
  else
    if strIn "application/json" (hget request.headers "content-type") then
      match request.json_body with
      | Except.error _ =>
        error_response "Provide a valid graphql query in the body of your request"
          "BadRequestError" 400 none
      | Except.ok data =>
        match data with
        | JsonValue.obj fields => dispatch_data view request fields
        | _ =>
          error_response "Provide a valid graphql query in the body of your request"
            "BadRequestError" 400 none
    else if request.method == "GET" && !request.query_params.isEmpty then
      dispatch_data view request (parse_query_params request.query_params)
    else if request.method == "GET" && should_render_graphiql view.graphiql request then
      { body := Body.text render_graphiql
        status_code := 200
        headers := some [("content-type", "text/html")] }
    else
      error_response "Unsupported Media Type" "UnsupportedMediaType" 415 none

/-- A sample execution result with data and no errors, for concrete runs. -/
def sampleResult : ExecutionResult :=
  { data := some (JsonValue.str "ok"), errors := [] }

/-- A view with exploration enabled and a trivial engine and encoder. -/
def sampleView : GraphQLView :=
  { graphiql := true
    execute_sync := fun _ _ => sampleResult
    json_encoder := fun _ => "encoded" }

/-- A view whose engine reports one GraphQL error with a null data field. -/
def errView : GraphQLView :=
  { graphiql := true
    execute_sync := fun _ _ =>
      { data := none, errors := [JsonValue.obj [("message", JsonValue.str "boom")]] }
    json_encoder := fun _ => "encoded" }

/-- A view with exploration rendering disabled. -/
def disabledView : GraphQLView :=
  { graphiql := false
    execute_sync := fun _ _ => sampleResult
    json_encoder := fun _ => "encoded" }

/-- A GET request carrying both a JSON object body and non-empty query
parameters. -/
def reqJsonWithParams : Request :=
  { method := "GET"
    headers := [("content-type", "application/json"), ("accept", "text/html")]
    query_params := [("query", "{ hello }")]
    json_body := Except.ok (JsonValue.obj [("query", JsonValue.str "{ fromBody }")]) }

/-- A POST request whose JSON body parses to an array, not an object. -/
def reqJsonArrayBody : Request :=
  { method := "POST"
    headers := [("content-type", "application/json")]
    query_params := []
    json_body := Except.ok (JsonValue.arr []) }

/-- A request with an unsupported method. -/
def reqPut : Request :=
  { method := "PUT"
    headers := [("content-type", "application/json")]
    query_params := []
    json_body := Except.ok (JsonValue.obj []) }

/-- A GET request with JSON content-type, an unparsable body, empty query
parameters and an html-accepting client: the JSON branch captures it. -/
def reqJsonCtBadBody : Request :=
  { method := "GET"
    headers := [("content-type", "application/json"), ("accept", "text/html")]
    query_params := []
    json_body := Except.error () }

/-- A bare GET from a browser: no content-type, accept text/html. -/
def reqBareHtml : Request :=
  { method := "GET"
    headers := [("accept", "text/html")]
    query_params := []
    json_body := Except.error () }

/-- A bare GET accepting any media type. -/
def reqBareStar : Request :=
  { method := "GET"
    headers := [("accept", "*/*")]
    query_params := []
    json_body := Except.error () }

/-- A bare GET with no headers at all (in particular no accept header). -/
def reqBareNoHeaders : Request :=
  { method := "GET"
    headers := []
    query_params := []
    json_body := Except.error () }

/-- C1: the request classifier evaluates its branches in a fixed priority
order: the JSON-body check precedes the query-parameter check, which
precedes the exploration-page check, which precedes the 415 catch-all; in
particular, for every GET request whose content-type contains
"application/json" and whose body parses as a JSON object, that object is
the data source even when non-empty query parameters are present (the
first conjunct has no hypothesis on `query_params`). -/
theorem c1_classifier_priority_order :
    (∀ (view : GraphQLView) (req : Request) (fields : List (String × JsonValue)),
      req.method = "GET" →
      strIn "application/json" (hget req.headers "content-type") = true →
      req.json_body = Except.ok (JsonValue.obj fields) →
      execute_request view req = dispatch_data view req fields) ∧
    (∀ (view : GraphQLView) (req : Request),
      req.method = "GET" →
      strIn "application/json" (hget req.headers "content-type") = false →
      req.query_params ≠ [] →
      execute_request view req = dispatch_data view req (parse_query_params req.query_params)) ∧
    (∀ (view : GraphQLView) (req : Request),
      req.method = "GET" →
      strIn "application/json" (hget req.headers "content-type") = false →
      req.query_params = [] →
      should_render_graphiql view.graphiql req = true →
      execute_request view req =
        { body := Body.text render_graphiql
          status_code := 200
          headers := some [("content-type", "text/html")] }) ∧
    (∀ (view : GraphQLView) (req : Request),
      req.method = "GET" →
      strIn "application/json" (hget req.headers "content-type") = false →
      req.query_params = [] →
      should_render_graphiql view.graphiql req = false →
      execute_request view req =
        error_response "Unsupported Media Type" "UnsupportedMediaType" 415 none) := by
  refine ⟨?_, ?_, ?_, ?_⟩
  · intro view req fields hm hct hb
    simp [execute_request, hm, hct, hb]
  · intro view req hm hct hqp
    simp [execute_request, hm, hct, hqp]
  · intro view req hm hct hqp hr
    simp [execute_request, hm, hct, hqp, hr]
  · intro view req hm hct hqp hr
    simp [execute_request, hm, hct, hqp, hr]

/-- Witness for C1: a GET request with a JSON object body and non-empty
query parameters uses the JSON body as the data source. -/
theorem c1_classifier_priority_order_witness :
    execute_request sampleView reqJsonWithParams =
      dispatch_data sampleView reqJsonWithParams [("query", JsonValue.str "{ fromBody }")] :=
  c1_classifier_priority_order.1 sampleView reqJsonWithParams _ rfl (by decide) rfl

/-- C2: every GET or POST request whose content-type contains
"application/json" and whose body fails to parse or parses to a non-object
gets a 400 response with Code "BadRequestError" and the fixed message. -/
theorem c2_invalid_json_body_bad_request (view : GraphQLView) (req : Request)
    (hm : req.method = "GET" ∨ req.method = "POST")
    (hct : strIn "application/json" (hget req.headers "content-type") = true)
    (hbad : ∀ fields, req.json_body ≠ Except.ok (JsonValue.obj fields)) :
    (execute_request view req).status_code = 400 ∧
    (execute_request view req).body = Body.json (JsonValue.obj
      [("Code", JsonValue.str "BadRequestError"),
       ("Message", JsonValue.str "Provide a valid graphql query in the body of your request")]) := by
  have hmeth : (req.method == "POST" || req.method == "GET") = true := by
    rcases hm with h | h <;> simp [h]
  cases hj : req.json_body with
  | error e =>
    constructor <;> simp [execute_request, hmeth, hct, hj, error_response]
  | ok d =>
    cases d with
    | obj fields => exact absurd hj (hbad fields)
    | null => constructor <;> simp [execute_request, hmeth, hct, hj, error_response]
    | bool b => constructor <;> simp [execute_request, hmeth, hct, hj, error_response]
    | num n => constructor <;> simp [execute_request, hmeth, hct, hj, error_response]
    | str s => constructor <;> simp [execute_request, hmeth, hct, hj, error_response]
    | arr xs => constructor <;> simp [execute_request, hmeth, hct, hj, error_response]

/-- Witness for C2: a POST request with a JSON array body gets the 400
BadRequestError response. -/
theorem c2_invalid_json_body_bad_request_witness :
    (execute_request sampleView reqJsonArrayBody).status_code = 400 ∧
    (execute_request sampleView reqJsonArrayBody).body = Body.json (JsonValue.obj
      [("Code", JsonValue.str "BadRequestError"),
       ("Message", JsonValue.str "Provide a valid graphql query in the body of your request")]) :=
  c2_invalid_json_body_bad_request sampleView reqJsonArrayBody (Or.inr rfl) (by decide)
    (fun fields h => by simp [reqJsonArrayBody] at h)

/-- C3: every request reaching the Operation Extractor with a data source
that has no "query" key or an empty query gets a 400 response whose Code
is "BadRequestError" and whose Message is exactly "No GraphQL query found
in the request". -/
theorem c3_missing_query_bad_request (view : GraphQLView) (req : Request)
    (data : List (String × JsonValue))
    (h : data.lookup "query" = none ∨ data.lookup "query" = some (JsonValue.str "")) :
    dispatch_data view req data =
      error_response "No GraphQL query found in the request" "BadRequestError" 400 none ∧
    (dispatch_data view req data).status_code = 400 ∧
    (dispatch_data view req data).body = Body.json (JsonValue.obj
      [("Code", JsonValue.str "BadRequestError"),
       ("Message", JsonValue.str "No GraphQL query found in the request")]) := by
  rcases h with h | h <;>
    refine ⟨?_, ?_, ?_⟩ <;>
      simp [dispatch_data, parse_request_data, h, error_response]

/-- Witness for C3: a data source with no "query" key yields the 400
missing-query response. -/
theorem c3_missing_query_bad_request_witness :
    dispatch_data sampleView reqJsonWithParams [("operationName", JsonValue.str "Op")] =
      error_response "No GraphQL query found in the request" "BadRequestError" 400 none ∧
    (dispatch_data sampleView reqJsonWithParams
        [("operationName", JsonValue.str "Op")]).status_code = 400 ∧
    (dispatch_data sampleView reqJsonWithParams
        [("operationName", JsonValue.str "Op")]).body = Body.json (JsonValue.obj
      [("Code", JsonValue.str "BadRequestError"),
       ("Message", JsonValue.str "No GraphQL query found in the request")]) :=
  c3_missing_query_bad_request sampleView reqJsonWithParams
    [("operationName", JsonValue.str "Op")] (Or.inl rfl)

/-- C4: every request whose method is neither GET nor POST gets a 405
response with Code "MethodNotAllowedError", and the method check is
applied before any content-type or body inspection: the response is
unchanged under arbitrary replacement of headers, query parameters and
body. -/
theorem c4_method_not_allowed (view : GraphQLView) (req : Request)
    (h1 : req.method ≠ "GET") (h2 : req.method ≠ "POST") :
    execute_request view req =
      error_response "Unsupported method, must be of request type POST or GET"
        "MethodNotAllowedError" 405 none ∧
    (execute_request view req).status_code = 405 ∧
    (∀ (hs qp : List (String × String)) (jb : Except Unit JsonValue),
      execute_request view
        { method := req.method, headers := hs, query_params := qp, json_body := jb } =
        execute_request view req) := by
  have hmeth : (req.method == "POST" || req.method == "GET") = false := by
    simp [h1, h2]
  refine ⟨?_, ?_, ?_⟩
  · simp [execute_request, hmeth]
  · simp [execute_request, hmeth, error_response]
  · intro hs qp jb
    simp [execute_request, hmeth]

/-- Witness for C4: a PUT request gets the 405 response whatever its
headers and body are. -/
theorem c4_method_not_allowed_witness :
    execute_request sampleView reqPut =
      error_response "Unsupported method, must be of request type POST or GET"
        "MethodNotAllowedError" 405 none ∧
    (execute_request sampleView reqPut).status_code = 405 ∧
    (∀ (hs qp : List (String × String)) (jb : Except Unit JsonValue),
      execute_request sampleView
        { method := reqPut.method, headers := hs, query_params := qp, json_body := jb } =
        execute_request sampleView reqPut) :=
  c4_method_not_allowed sampleView reqPut (by decide) (by decide)

/-- C5: every request that reaches the Execution Adapter stage (the
operation was extracted successfully) produces a final response with HTTP
status 200, for every view and hence for every ExecutionResult the engine
may return, errors included. -/
theorem c5_execution_stage_status_200 (view : GraphQLView) (req : Request)
    (data : List (String × JsonValue)) (rd : GraphQLRequestData)
    (h : parse_request_data data = Except.ok rd) :
    (dispatch_data view req data).status_code = 200 := by
  simp [dispatch_data, h]

/-- Witness for C5: with an engine that reports a GraphQL error and null
data, the response status is still 200. -/
theorem c5_execution_stage_status_200_witness :
    (dispatch_data errView reqJsonWithParams [("query", JsonValue.str "{ q }")]).status_code
      = 200 :=
  c5_execution_stage_status_200 errView reqJsonWithParams
    [("query", JsonValue.str "{ q }")]
    { query := JsonValue.str "{ q }", variable_values := none, operation_name := none }
    rfl

/-- Counterexample to C6 as stated: a GET request with empty query
parameters, exploration enabled and accept "text/html", but whose
content-type contains "application/json" and whose body is unparsable, is
captured by the earlier JSON-body branch and answered with 400, not with
the exploration page. -/
theorem c6_exploration_counterexample :
    reqJsonCtBadBody.method = "GET" ∧
    reqJsonCtBadBody.query_params = [] ∧
    sampleView.graphiql = true ∧
    strIn "text/html" (hget reqJsonCtBadBody.headers "accept") = true ∧
    (execute_request sampleView reqJsonCtBadBody).status_code = 400 := by
  refine ⟨rfl, rfl, rfl, by decide, by decide⟩

/-- C6 amended: for every GET request with empty query parameters, a
content-type that does not contain "application/json", exploration
rendering enabled, and an accept header containing "text/html" or "*/*",
the handler returns status 200 with content-type text/html and the
exploration page as body, terminating before Operation Extraction. -/
theorem c6_exploration_page_amended (view : GraphQLView) (req : Request)
    (hm : req.method = "GET")
    (hct : strIn "application/json" (hget req.headers "content-type") = false)
    (hqp : req.query_params = [])
    (hg : view.graphiql = true)
    (hacc : strIn "text/html" (hget req.headers "accept") = true ∨
      strIn "*/*" (hget req.headers "accept") = true) :
    execute_request view req =
      { body := Body.text render_graphiql
        status_code := 200
        headers := some [("content-type", "text/html")] } := by
  have hr : should_render_graphiql view.graphiql req = true := by
    rcases hacc with h | h <;> simp [should_render_graphiql, hg, h]
  simp [execute_request, hm, hct, hqp, hr]

/-- Witness for the amended C6: a bare browser GET receives the
exploration page. -/
theorem c6_exploration_page_amended_witness :
    execute_request sampleView reqBareHtml =
      { body := Body.text render_graphiql
        status_code := 200
        headers := some [("content-type", "text/html")] } :=
  c6_exploration_page_amended sampleView reqBareHtml rfl (by decide) rfl rfl
    (Or.inl (by decide))

/-- C7: every GET request with empty query parameters, a content-type not
containing "application/json", and exploration rendering disabled gets a
415 response with Code "UnsupportedMediaType". -/
theorem c7_unsupported_media_type (view : GraphQLView) (req : Request)
    (hm : req.method = "GET")
    (hct : strIn "application/json" (hget req.headers "content-type") = false)
    (hqp : req.query_params = [])
    (hg : view.graphiql = false) :
    execute_request view req =
      error_response "Unsupported Media Type" "UnsupportedMediaType" 415 none ∧
    (execute_request view req).status_code = 415 ∧
    (execute_request view req).body = Body.json (JsonValue.obj
      [("Code", JsonValue.str "UnsupportedMediaType"),
       ("Message", JsonValue.str "Unsupported Media Type")]) := by
  have hr : should_render_graphiql view.graphiql req = false := by
    simp [should_render_graphiql, hg]
  refine ⟨?_, ?_, ?_⟩ <;> simp [execute_request, hm, hct, hqp, hr, error_response]

/-- Witness for C7: a browser GET against a view with exploration disabled
gets 415. -/
theorem c7_unsupported_media_type_witness :
    execute_request disabledView reqBareHtml =
      error_response "Unsupported Media Type" "UnsupportedMediaType" 415 none ∧
    (execute_request disabledView reqBareHtml).status_code = 415 ∧
    (execute_request disabledView reqBareHtml).body = Body.json (JsonValue.obj
      [("Code", JsonValue.str "UnsupportedMediaType"),
       ("Message", JsonValue.str "Unsupported Media Type")]) :=
  c7_unsupported_media_type disabledView reqBareHtml rfl (by decide) rfl rfl

/-- C8: every response of the handler is either a 200 success or was built
by the single error responder `error_response`, with status in
400/405/415 and a body of exactly the shape Code/Message; no other code
path constructs an error body. -/
theorem c8_error_shape_contract (view : GraphQLView) (req : Request) :
    (execute_request view req).status_code = 200 ∨
    ∃ m c s, (s = 400 ∨ s = 405 ∨ s = 415) ∧
      execute_request view req = error_response m c s none ∧
      error_response m c s none =
        { body := Body.json (JsonValue.obj
            [("Code", JsonValue.str c), ("Message", JsonValue.str m)])
          status_code := s
          headers := none } := by
  unfold execute_request dispatch_data
  repeat' split
  all_goals first
    | (left; rfl)
    | (right; exact ⟨_, _, 405, by simp, rfl, rfl⟩)
    | (right; exact ⟨_, _, 400, by simp, rfl, rfl⟩)
    | (right; exact ⟨_, _, 415, by simp, rfl, rfl⟩)

/-- C9: the exploration-page path is deterministic: any two requests that
both take it under the same view configuration receive identical response
bodies, namely the fixed exploration page. -/
theorem c9_exploration_deterministic (view : GraphQLView) (r1 r2 : Request)
    (h1m : r1.method = "GET") (h2m : r2.method = "GET")
    (h1ct : strIn "application/json" (hget r1.headers "content-type") = false)
    (h2ct : strIn "application/json" (hget r2.headers "content-type") = false)
    (h1qp : r1.query_params = []) (h2qp : r2.query_params = [])
    (h1r : should_render_graphiql view.graphiql r1 = true)
    (h2r : should_render_graphiql view.graphiql r2 = true) :
    (execute_request view r1).body = (execute_request view r2).body ∧
    (execute_request view r1).body = Body.text render_graphiql := by
  constructor <;>
    simp [execute_request, h1m, h2m, h1ct, h2ct, h1qp, h2qp, h1r, h2r]

/-- Witness for C9: two browser GETs with different accept headers both
receive the same exploration page body. -/
theorem c9_exploration_deterministic_witness :
    (execute_request sampleView reqBareHtml).body =
      (execute_request sampleView reqBareStar).body ∧
    (execute_request sampleView reqBareHtml).body = Body.text render_graphiql :=
  c9_exploration_deterministic sampleView reqBareHtml reqBareStar rfl rfl
    (by decide) (by decide) rfl rfl (by decide) (by decide)

/-- C10: a GET request with empty query parameters, non-JSON content-type
and exploration enabled whose accept header is absent (the lookup treats
it as the empty string) or contains neither "text/html" nor "*/*" gets a
415 response: no exploration page is served. -/
theorem c10_missing_accept_415 (view : GraphQLView) (req : Request)
    (hm : req.method = "GET")
    (hct : strIn "application/json" (hget req.headers "content-type") = false)
    (hqp : req.query_params = [])
    (hg : view.graphiql = true)
    (hacc : req.headers.lookup "accept" = none ∨
      (strIn "text/html" (hget req.headers "accept") = false ∧
        strIn "*/*" (hget req.headers "accept") = false)) :
    execute_request view req =
      error_response "Unsupported Media Type" "UnsupportedMediaType" 415 none ∧
    (execute_request view req).status_code = 415 := by
  have haccs : strIn "text/html" (hget req.headers "accept") = false ∧
      strIn "*/*" (hget req.headers "accept") = false := by
    rcases hacc with h | h
    · have h0 : hget req.headers "accept" = "" := by simp [hget, h]
      rw [h0]
      constructor <;> decide
    · exact h
  have hr : should_render_graphiql view.graphiql req = false := by
    simp [should_render_graphiql, haccs.1, haccs.2]
  constructor <;> simp [execute_request, hm, hct, hqp, hr, error_response]

/-- Witness for C10: a GET with no headers at all, exploration enabled,
gets 415. -/
theorem c10_missing_accept_415_witness :
    execute_request sampleView reqBareNoHeaders =
      error_response "Unsupported Media Type" "UnsupportedMediaType" 415 none ∧
    (execute_request sampleView reqBareNoHeaders).status_code = 415 :=
  c10_missing_accept_415 sampleView reqBareNoHeaders rfl (by decide) rfl rfl
    (Or.inl rfl)
